import Mathlib

/-!
Verification of the NestFest competition platform's registration, submission,
voting-eligibility, judge-assignment and anomaly-detection logic.

The Python source (`application_models.py`, `nestfest_ml_pipeline.py`) is
shallowly embedded: each model class becomes a structure, each method a total
Lean function.  Database-backed helpers (`get_registration_for_competition`,
`has_user_voted`, `get_round_info`, `has_required_files`, `get_by_id`) are
stubs in the source that would be supplied by the persistence layer; they are
modelled as explicit parameters of the operations that call them.  The current
time (`datetime.utcnow()`) is likewise passed explicitly.  Python exceptions
become `Except` results; every `raise ValueError(reason)` in the source is
embedded as `Except.error` carrying the exception class and the message.
-/

namespace NestFest

/-- Enumeration `CompetitionType` from the source. -/
inductive CompetitionType where
  | individual
  | team
  | hybrid
deriving DecidableEq, Repr

/-- Enumeration `CompetitionStatus` from the source. -/
inductive CompetitionStatus where
  | draft
  | published
  | active
  | completed
  | cancelled
deriving DecidableEq, Repr

/-- Enumeration `SubmissionStatus` from the source. -/
inductive SubmissionStatus where
  | draft
  | submitted
  | under_review
  | reviewed
  | disqualified
deriving DecidableEq, Repr

/-- Enumeration `VotingType` from the source. -/
inductive VotingType where
  | traditional
  | quadratic
  | ranked_choice
  | approval
deriving DecidableEq, Repr

/-- Enumeration `AccountStatus` from the source. -/
inductive AccountStatus where
  | active
  | suspended
  | banned
  | pending
deriving DecidableEq, Repr

/-- Exception classes.  The source raises only `ValueError`;
`authorizationError` is the separate class the specification's error taxonomy
(§7, AuthorizationError) calls for, included so that "the error kind is
distinct from a validation error" is expressible. -/
inductive ExcClass where
  | valueError
  | authorizationError
deriving DecidableEq, Repr

/-- A raised Python exception: its class and its message string. -/
structure PyError where
  cls : ExcClass
  msg : String
deriving DecidableEq, Repr

/-- A raised `ValueError(msg)` — the only exception class the source raises. -/
def valueError (msg : String) : PyError :=
  { cls := ExcClass.valueError, msg := msg }

/-- `User`: the fields of `User.__init__` that the eligibility logic reads.
`account_status` starts `ACTIVE`, `email_verified` starts `False`. -/
structure User where
  id : String
  account_status : AccountStatus
  email_verified : Bool
deriving DecidableEq, Repr

/-- `Competition`: the fields read by the registration logic.
`registration_start`/`registration_end` are assigned by
`CompetitionService.create_competition` after construction; times are integer
seconds. -/
structure Competition where
  id : String
  type : CompetitionType
  status : CompetitionStatus
  registration_start : Int
  registration_end : Int
deriving DecidableEq, Repr

/-- `Registration` as created by `Competition.register_participant`
(the `registration_data` dict is payload the logic never reads). -/
structure Registration where
  competition_id : String
  participant_type : String
  participant_id : String
deriving DecidableEq, Repr

/-- `User.can_participate_in_competition`.  The source queries
`get_registration_for_competition` (a persistence stub); whether an existing
registration was found is the parameter `existing_registration`. -/
def User.can_participate_in_competition (u : User)
    (existing_registration : Bool) : Bool × String :=
  if u.account_status ≠ AccountStatus.active then
    (false, "Account not active")
  else if ¬ u.email_verified then
    (false, "Email not verified")
  else if existing_registration then
    (false, "Already registered for this competition")
  else
    (true, "Can participate")

/-- `Competition.is_registration_open` property: `status == PUBLISHED` and
`registration_start <= now <= registration_end`. -/
def Competition.is_registration_open (c : Competition) (now : Int) : Bool :=
  c.status = CompetitionStatus.published ∧
    c.registration_start ≤ now ∧ now ≤ c.registration_end

/-- `Competition.can_user_register`. -/
def Competition.can_user_register (c : Competition) (u : User)
    (existing_registration : Bool) (now : Int) : Bool × String :=
  if ¬ c.is_registration_open now then
    (false, "Registration is not open")
  else
    u.can_participate_in_competition existing_registration

/-- `Competition._validate_registration`: participant-type membership and
type-compatibility checks, in source order. -/
def Competition.validate_registration (c : Competition)
    (_participant_id participant_type : String) : Bool × String :=
  if participant_type ≠ "individual" ∧ participant_type ≠ "team" then
    (false, "Invalid participant type")
  else if participant_type = "individual" ∧ c.type = CompetitionType.team then
    (false, "Individual registration not allowed for team competition")
  else if participant_type = "team" ∧ c.type = CompetitionType.individual then
    (false, "Team registration not allowed for individual competition")
  else
    (true, "Registration valid")

/-- `Competition.register_participant`: run `_validate_registration`; on
failure `raise ValueError(reason)`, on success construct the `Registration`. -/
def Competition.register_participant (c : Competition)
    (participant_id participant_type : String) : Except PyError Registration :=
  let v := c.validate_registration participant_id participant_type
  if v.1 then
    Except.ok { competition_id := c.id, participant_type := participant_type,
                participant_id := participant_id }
  else
    Except.error { cls := ExcClass.valueError, msg := v.2 }

/-- A concrete individual-only competition whose registration window
(10..20) is closed at time 0 (status is still `draft`). -/
def compInd : Competition :=
  { id := "c1", type := CompetitionType.individual,
    status := CompetitionStatus.draft,
    registration_start := 10, registration_end := 20 }

/-- A concrete team-only competition. -/
def compTeam : Competition :=
  { id := "c2", type := CompetitionType.team,
    status := CompetitionStatus.published,
    registration_start := 0, registration_end := 100 }

/-- A concrete hybrid competition. -/
def compHybrid : Competition :=
  { id := "c3", type := CompetitionType.hybrid,
    status := CompetitionStatus.published,
    registration_start := 0, registration_end := 100 }

/-- Round information as returned by `Submission.get_round_info` (a
persistence stub); the `submission_deadline` entry may itself be `None`. -/
structure RoundInfo where
  submission_deadline : Option Int
deriving DecidableEq, Repr

/-- The persistence-supplied environment of a `Submission` operation: the
result of `has_required_files`, the result of `get_round_info`, and the
current time `datetime.utcnow()` (integer seconds). -/
structure SubmissionEnv where
  has_required_files : Bool
  round_info : Option RoundInfo
  now : Int
deriving DecidableEq, Repr

/-- `Submission`: the fields `can_submit`/`submit` read and write.
`Submission.__init__` assigns neither `submitted_at` nor `is_final`
(the absent attributes are modelled as `none`). -/
structure Submission where
  id : String
  status : SubmissionStatus
  submitted_at : Option Int
  is_final : Option Bool
deriving DecidableEq, Repr

/-- `Submission.__init__`: a fresh draft (the `uuid4` id is a parameter). -/
def Submission.new (id : String) : Submission :=
  { id := id, status := SubmissionStatus.draft, submitted_at := none,
    is_final := none }

/-- `Submission.can_submit`: not-draft, missing-files and deadline checks, in
source order.  The deadline check runs only when round info exists and holds a
deadline (`if round_info and round_info['submission_deadline']`). -/
def Submission.can_submit (s : Submission) (env : SubmissionEnv) :
    Bool × String :=
  if s.status ≠ SubmissionStatus.draft then
    (false, "Submission already finalized")
  else if ¬ env.has_required_files then
    (false, "Missing required files")
  else
    match env.round_info with
    | some ri =>
      match ri.submission_deadline with
      | some d =>
        if env.now > d then (false, "Submission deadline has passed")
        else (true, "Can submit")
      | none => (true, "Can submit")
    | none => (true, "Can submit")

/-- The deadline test inside `can_submit` passes: there is no round info, no
deadline, or the current time is not past it. -/
def SubmissionEnv.deadline_ok (env : SubmissionEnv) : Bool :=
  match env.round_info with
  | some ri =>
    match ri.submission_deadline with
    | some d => env.now ≤ d
    | none => true
  | none => true

/-- `Submission.submit`: on `can_submit` failure `raise ValueError(reason)`
(the submission is left untouched); on success set `status = SUBMITTED`,
stamp `submitted_at = utcnow()`, set `is_final = True`. -/
def Submission.submit (s : Submission) (env : SubmissionEnv) :
    Except PyError Submission :=
  let v := s.can_submit env
  if v.1 then
    Except.ok { s with status := SubmissionStatus.submitted,
                       submitted_at := some env.now, is_final := some true }
  else
    Except.error (valueError v.2)

/-- `Team`: the fields the capacity and registration logic reads.  The random
`invite_code` and the `uuid4` id are irrelevant to the verified logic (the id
is a parameter of the constructor). -/
structure Team where
  id : String
  name : String
  captain_id : String
  max_members : Int
  current_member_count : Int
  status : String
deriving DecidableEq, Repr

/-- `Team.__init__(name, captain_id, max_members)`: starts with the captain as
sole member (`current_member_count = 1`) and status `"forming"`. -/
def Team.new (id name captain_id : String) (max_members : Int) : Team :=
  { id := id, name := name, captain_id := captain_id,
    max_members := max_members, current_member_count := 1,
    status := "forming" }

/-- `Team.can_add_member`. -/
def Team.can_add_member (t : Team) : Bool × String :=
  if t.status ≠ "forming" then
    (false, "Team is not accepting new members")
  else if t.current_member_count ≥ t.max_members then
    (false, "Team is full")
  else
    (true, "Can add member")

/-- Modelled from the spec: the member-count increment happens on invitation
acceptance, "an operation supplied by the excluded API layer but constrained
by this same capacity check" (§4.2).  It increments the count only when
`can_add_member` passes and otherwise leaves the team unchanged. -/
def Team.add_member_gated (t : Team) : Team :=
  if (t.can_add_member).1 then
    { t with current_member_count := t.current_member_count + 1 }
  else
    t

/-- `n` successive gated member additions. -/
def Team.apply_adds (t : Team) : Nat → Team
  | 0 => t
  | n + 1 => (t.add_member_gated).apply_adds n

/-- `CompetitionService.register_for_competition`.  The persistence lookups
`Competition.get_by_id` and `Team.get_by_id` are stubs in the source; their
results are the parameters `competition` and `team`.  `team_id = none` is the
individual-registration path. -/
def CompetitionService.register_for_competition
    (competition : Option Competition) (user : User)
    (team_id : Option String) (team : Option Team) :
    Except PyError Registration :=
  match competition with
  | none => Except.error (valueError "Competition not found")
  | some c =>
    match team_id with
    | some tid =>
      match team with
      | none => Except.error (valueError "Team not found")
      | some t =>
        if t.captain_id ≠ user.id then
          Except.error (valueError "Only team captain can register team")
        else
          c.register_participant tid "team"
    | none => c.register_participant user.id "individual"

/-- `JudgeAssignment` as created by
`JudgingService.assign_judges_to_competition`. -/
structure JudgeAssignment where
  competition_id : String
  judge_id : String
  assignment_method : String
deriving DecidableEq, Repr

/-- `JudgingService.assign_judges_to_competition`: for each entry of
`judge_ids`, unconditionally append one `JudgeAssignment`. -/
def JudgingService.assign_judges_to_competition (competition_id : String)
    (judge_ids : List String) (assignment_method : String) :
    List JudgeAssignment :=
  judge_ids.map (fun j => ⟨competition_id, j, assignment_method⟩)

/-- `VotingSession`: the fields the eligibility logic reads.
`prevent_vote_changing : Option Bool` models the dynamically absent attribute
(`hasattr` fails ↦ `none`). -/
structure VotingSession where
  id : String
  competition_id : String
  name : String
  voting_type : VotingType
  requires_authentication : Bool
  status : String
  votes_per_voter : Int
  created_by : String
  start_time : Int
  end_time : Int
  prevent_vote_changing : Option Bool
deriving DecidableEq, Repr

/-- `VotingSession.__init__`: sets `status = "draft"`,
`requires_authentication = True`, `votes_per_voter = 1` and never creates a
`prevent_vote_changing` attribute (`none`).  `start_time`/`end_time` are not
assigned by `__init__` either; they are supplied later by the excluded layer
and appear here as constructor parameters. -/
def VotingSession.new (id competition_id name : String)
    (voting_type : VotingType) (created_by : String)
    (start_time end_time : Int) : VotingSession :=
  { id := id, competition_id := competition_id, name := name,
    voting_type := voting_type, requires_authentication := true,
    status := "draft", votes_per_voter := 1, created_by := created_by,
    start_time := start_time, end_time := end_time,
    prevent_vote_changing := none }

/-- `VotingSession.is_active` property: `status == "active"` and
`start_time <= now <= end_time`. -/
def VotingSession.is_active (v : VotingSession) (now : Int) : Bool :=
  if v.status ≠ "active" then
    false
  else
    v.start_time ≤ now ∧ now ≤ v.end_time

/-- `VotingSession.can_user_vote`.  `has_user_voted` is a persistence stub in
the source; its result is the parameter `has_voted`.  The
`hasattr(self, 'prevent_vote_changing') and self.prevent_vote_changing` test
is `Option.getD false`. -/
def VotingSession.can_user_vote (v : VotingSession) (u : User)
    (has_voted : Bool) (now : Int) : Bool × String :=
  if ¬ v.is_active now then
    (false, "Voting session is not active")
  else if v.requires_authentication ∧ ¬ u.email_verified then
    (false, "Email verification required")
  else if v.prevent_vote_changing.getD false ∧ has_voted then
    (false, "Already voted in this session")
  else
    (true, "Can vote")

/-- One row of the ML pipeline's dataframe, as read by the rapid-vote stage of
`NestFestMLPipeline.detect_anomalies`: the submission the vote belongs to and
its timestamp in seconds. -/
structure VoteRow where
  submission_id : Nat
  vote_timestamp : Int
deriving DecidableEq, Repr

/-- Timestamp of the last row for `sid` in `rows` — the "previous vote on the
same submission" that `groupby('submission_id')['vote_timestamp'].diff()`
subtracts from the current row. -/
def lastTimestamp (rows : List VoteRow) (sid : Nat) : Option Int :=
  rows.foldl
    (fun acc r => if r.submission_id = sid then some r.vote_timestamp else acc)
    none

/-- `df.groupby('submission_id')['vote_timestamp'].diff().dt.total_seconds()`:
for each row, the time difference to the previous row with the same
`submission_id`; `none` models pandas `NaN` for a group's first row. -/
def vote_time_diff (rows : List VoteRow) : List (Option Int) :=
  (List.range rows.length).map (fun i =>
    match rows[i]? with
    | some r =>
      (lastTimestamp (rows.take i) r.submission_id).map
        (fun t => r.vote_timestamp - t)
    | none => none)

/-- `np.where(df['vote_time_diff'] < 5, 1, 0)`: flag 1 exactly when the gap is
strictly under 5 seconds; `NaN < 5` is false in numpy, so the first vote of a
group gets 0. -/
def rapid_vote_anomaly (rows : List VoteRow) : List Nat :=
  (vote_time_diff rows).map (fun d =>
    match d with
    | some x => if x < 5 then 1 else 0
    | none => 0)

/-- A user with verified email and active account. -/
def userVerified : User :=
  { id := "u1", account_status := AccountStatus.active,
    email_verified := true }

/-- A user whose email is not verified. -/
def userUnverified : User :=
  { id := "u2", account_status := AccountStatus.active,
    email_verified := false }

/-- A concrete team whose captain is `"cap"`, with room for 4 members. -/
def teamAlpha : Team := Team.new "t1" "Alpha" "cap" 4

/-- The captain of `teamAlpha`. -/
def userCaptain : User :=
  { id := "cap", account_status := AccountStatus.active,
    email_verified := true }

/-- A voting session that is live at time 50: status `"active"`, window
0..100, and — as after construction — no `prevent_vote_changing` attribute. -/
def sessionLive : VotingSession :=
  { id := "v1", competition_id := "c3", name := "final",
    voting_type := VotingType.traditional, requires_authentication := true,
    status := "active", votes_per_voter := 1, created_by := "adm",
    start_time := 0, end_time := 100, prevent_vote_changing := none }

/-- An environment in which a draft submission may be finalized: required
files present, a round deadline of 100, current time 50. -/
def envOpen : SubmissionEnv :=
  { has_required_files := true, round_info := some { submission_deadline := some 100 },
    now := 50 }

/-- C1 counterexample: registering a `team` participant into the
individual-only competition `compInd` fails with the exact reason
"Team registration not allowed for individual competition", which is not the
string "Individual registration not allowed for team competition" that the
claim asserts for this case (the claim swaps the two messages). -/
theorem c1_counterexample :
    compInd.register_participant "t1" "team" =
      Except.error (valueError "Team registration not allowed for individual competition") ∧
    "Team registration not allowed for individual competition" ≠
      "Individual registration not allowed for team competition" := by
  constructor
  · rfl
  · decide

/-- C1 (amended): an individual-only competition rejects a `team` participant
with exactly "Team registration not allowed for individual competition"; a
team-only competition rejects an `individual` participant with exactly
"Individual registration not allowed for team competition"; a hybrid
competition accepts either participant type. -/
theorem c1_type_mismatch_reasons (c : Competition) (pid : String) :
    (c.type = CompetitionType.individual →
      c.register_participant pid "team" =
        Except.error (valueError "Team registration not allowed for individual competition")) ∧
    (c.type = CompetitionType.team →
      c.register_participant pid "individual" =
        Except.error (valueError "Individual registration not allowed for team competition")) ∧
    (c.type = CompetitionType.hybrid →
      c.register_participant pid "individual" =
        Except.ok ⟨c.id, "individual", pid⟩ ∧
      c.register_participant pid "team" =
        Except.ok ⟨c.id, "team", pid⟩) := by
  refine ⟨fun h => ?_, fun h => ?_, fun h => ⟨?_, ?_⟩⟩ <;>
    simp [Competition.register_participant, Competition.validate_registration, valueError, h]

/-- C1 witness: the amended theorem evaluated on the concrete competitions. -/
theorem c1_type_mismatch_reasons_witness :
    compInd.register_participant "t1" "team" =
      Except.error (valueError "Team registration not allowed for individual competition") ∧
    compTeam.register_participant "u1" "individual" =
      Except.error (valueError "Individual registration not allowed for team competition") :=
  ⟨(c1_type_mismatch_reasons compInd "t1").1 rfl,
   (c1_type_mismatch_reasons compTeam "u1").2.1 rfl⟩

/-- C2 counterexample: at time 0 registration for `compInd` is not open, yet
`register_participant` still creates a `Registration` for a valid individual
participant — the function checks neither the registration window nor
uniqueness, refuting the claim that it validates those before creating. -/
theorem c2_counterexample :
    compInd.is_registration_open 0 = false ∧
    compInd.register_participant "u1" "individual" =
      Except.ok ⟨"c1", "individual", "u1"⟩ := by
  constructor
  · decide
  · rfl

/-- C2 (amended): `register_participant` validates only participant-type
membership and participant-type/competition-type compatibility before creating
the `Registration`; on a violated type precondition it fails with a
`ValueError` carrying the specific reason and creates nothing.  It does not
consult the registration window or existing registrations (those checks live
in `can_user_register` / `can_participate_in_competition`, which it never
calls). -/
theorem c2_register_participant_validates_type_only (c : Competition)
    (pid pt : String) :
    (pt ≠ "individual" ∧ pt ≠ "team" →
      c.register_participant pid pt =
        Except.error (valueError "Invalid participant type")) ∧
    (pt = "individual" ∧ c.type = CompetitionType.team →
      c.register_participant pid pt =
        Except.error (valueError "Individual registration not allowed for team competition")) ∧
    (pt = "team" ∧ c.type = CompetitionType.individual →
      c.register_participant pid pt =
        Except.error (valueError "Team registration not allowed for individual competition")) ∧
    ((pt = "individual" ∧ c.type ≠ CompetitionType.team) ∨
     (pt = "team" ∧ c.type ≠ CompetitionType.individual) →
      c.register_participant pid pt =
        Except.ok ⟨c.id, pt, pid⟩) := by
  refine ⟨fun h => ?_, fun h => ?_, fun h => ?_, fun h => ?_⟩
  · simp [Competition.register_participant, Competition.validate_registration,
      valueError, h.1, h.2]
  · simp [Competition.register_participant, Competition.validate_registration,
      valueError, h.1, h.2]
  · simp [Competition.register_participant, Competition.validate_registration,
      valueError, h.1, h.2]
  · rcases h with ⟨h1, h2⟩ | ⟨h1, h2⟩ <;>
      simp [Competition.register_participant,
        Competition.validate_registration, valueError, h1, h2]

/-- C2 witness: the amended theorem evaluated on concrete inputs. -/
theorem c2_register_participant_validates_type_only_witness :
    compInd.register_participant "u9" "bogus" =
      Except.error (valueError "Invalid participant type") ∧
    compInd.register_participant "u9" "individual" =
      Except.ok ⟨"c1", "individual", "u9"⟩ :=
  ⟨(c2_register_participant_validates_type_only compInd "u9" "bogus").1
      (by decide),
   (c2_register_participant_validates_type_only compInd "u9" "individual").2.2.2
      (Or.inl ⟨rfl, by decide⟩)⟩

/-- If the submission is a draft, required files are present and the deadline
test passes, `can_submit` answers positively. -/
theorem can_submit_of_preconditions (s : Submission) (env : SubmissionEnv)
    (hd : s.status = SubmissionStatus.draft)
    (hf : env.has_required_files = true)
    (hdl : env.deadline_ok = true) :
    s.can_submit env = (true, "Can submit") := by
  unfold Submission.can_submit
  unfold SubmissionEnv.deadline_ok at hdl
  cases hri : env.round_info with
  | none => simp [hd, hf]
  | some ri =>
    rw [hri] at hdl
    simp only [decide_eq_true_eq] at hdl
    cases hdd : ri.submission_deadline with
    | none => simp [hd, hf, hdd]
    | some d =>
      rw [hdd] at hdl
      simp only [decide_eq_true_eq] at hdl
      have hnd : ¬ (env.now > d) := by omega
      simp [hd, hf, hdd, hnd]

/-- C3: a draft submission with required files attached and an unexpired round
deadline is finalized by `submit`: status becomes `submitted`, the submission
time is stamped, `is_final` is set.  `submit` on any submission that is not a
draft — in particular one on which `submit` already succeeded — raises
`ValueError("Submission already finalized")` and returns no modified
submission (the state is left unchanged). -/
theorem c3_submit_lifecycle (s : Submission) (env env2 : SubmissionEnv)
    (hd : s.status = SubmissionStatus.draft)
    (hf : env.has_required_files = true)
    (hdl : env.deadline_ok = true) :
    s.submit env = Except.ok { s with status := SubmissionStatus.submitted,
                                      submitted_at := some env.now,
                                      is_final := some true } ∧
    (∀ s2 : Submission, s2.status ≠ SubmissionStatus.draft →
      s2.submit env2 =
        Except.error (valueError "Submission already finalized")) ∧
    (∀ s1 : Submission, s.submit env = Except.ok s1 →
      s1.submit env2 =
        Except.error (valueError "Submission already finalized")) := by
  have hok : s.can_submit env = (true, "Can submit") :=
    can_submit_of_preconditions s env hd hf hdl
  have hsub : s.submit env =
      Except.ok { s with status := SubmissionStatus.submitted,
                         submitted_at := some env.now,
                         is_final := some true } := by
    simp [Submission.submit, hok]
  have hfail : ∀ s2 : Submission, s2.status ≠ SubmissionStatus.draft →
      s2.submit env2 =
        Except.error (valueError "Submission already finalized") := by
    intro s2 h2
    unfold Submission.submit Submission.can_submit
    simp [h2]
  refine ⟨hsub, hfail, ?_⟩
  intro s1 h1
  rw [hsub] at h1
  injection h1 with h1
  subst h1
  exact hfail _ (by simp)

/-- C3 witness: a fresh draft is finalized in `envOpen`; submitting the result
again fails with "Submission already finalized". -/
theorem c3_submit_lifecycle_witness :
    (Submission.new "s1").submit envOpen =
      Except.ok { id := "s1", status := SubmissionStatus.submitted,
                  submitted_at := some 50, is_final := some true } ∧
    ({ id := "s1", status := SubmissionStatus.submitted,
       submitted_at := some 50, is_final := some true } : Submission).submit
        envOpen =
      Except.error (valueError "Submission already finalized") := by
  have h := c3_submit_lifecycle (Submission.new "s1") envOpen envOpen rfl rfl
    (by decide)
  exact ⟨h.1, h.2.2 _ h.1⟩

/-- C4: `can_participate_in_competition` fails exactly when the account is
not active, the email is unverified, or a registration already exists for the
pair; `can_user_register` fails exactly when registration is not open or
participation fails, answering `(false, "Registration is not open")` whenever
the window test fails; and the window test is precisely `status == published`
with the current time inside `[registration_start, registration_end]`. -/
theorem c4_eligibility (u : User) (c : Competition) (existing : Bool)
    (now : Int) :
    ((u.can_participate_in_competition existing).1 = false ↔
      (u.account_status ≠ AccountStatus.active ∨ u.email_verified = false ∨
        existing = true)) ∧
    ((c.can_user_register u existing now).1 = false ↔
      (c.is_registration_open now = false ∨
        (u.can_participate_in_competition existing).1 = false)) ∧
    (c.is_registration_open now = false →
      c.can_user_register u existing now =
        (false, "Registration is not open")) ∧
    (c.is_registration_open now = true ↔
      (c.status = CompetitionStatus.published ∧
        c.registration_start ≤ now ∧ now ≤ c.registration_end)) := by
  refine ⟨?_, ?_, fun h => ?_, ?_⟩
  · unfold User.can_participate_in_competition
    split_ifs with h1 h2 h3 <;> simp_all
  · unfold Competition.can_user_register
    split_ifs with h1 <;> simp_all
  · unfold Competition.can_user_register
    simp [h]
  · unfold Competition.is_registration_open
    simp

/-- C4 witness: for `compInd` (still a draft) the register check answers
exactly `(false, "Registration is not open")`. -/
theorem c4_eligibility_witness :
    compInd.can_user_register userUnverified false 0 =
      (false, "Registration is not open") :=
  (c4_eligibility userUnverified compInd false 0).2.2.1 (by decide)

/-- C5 counterexample: a non-captain team registration is rejected with
`ValueError("Only team captain can register team")` — the very same exception
class as the validation rejections of `register_participant`, so the two
error kinds are not distinct, refuting the claim; in particular the class is
not `authorizationError`. -/
theorem c5_counterexample :
    CompetitionService.register_for_competition (some compHybrid) userVerified
        (some "t1") (some teamAlpha) =
      Except.error (valueError "Only team captain can register team") ∧
    compInd.register_participant "t1" "team" =
      Except.error
        (valueError "Team registration not allowed for individual competition") ∧
    (valueError "Only team captain can register team").cls =
      (valueError
        "Team registration not allowed for individual competition").cls ∧
    (valueError "Only team captain can register team").cls ≠
      ExcClass.authorizationError := by
  refine ⟨rfl, rfl, rfl, by decide⟩

/-- C5 (amended): a team registration by a user who is not the team's captain
is rejected with `ValueError("Only team captain can register team")` — the
same exception class (`ValueError`) as the validation errors, so callers can
distinguish the two failures only by message, not by kind; when the user is
the captain, the call proceeds to the competition's normal
`register_participant` validation with participant type `team`. -/
theorem c5_captain_check (c : Competition) (u : User) (tid : String)
    (t : Team) :
    (t.captain_id ≠ u.id →
      CompetitionService.register_for_competition (some c) u (some tid)
          (some t) =
        Except.error (valueError "Only team captain can register team")) ∧
    (valueError "Only team captain can register team").cls =
      ExcClass.valueError ∧
    (t.captain_id = u.id →
      CompetitionService.register_for_competition (some c) u (some tid)
          (some t) =
        c.register_participant tid "team") := by
  refine ⟨fun h => ?_, rfl, fun h => ?_⟩
  · unfold CompetitionService.register_for_competition
    simp [h]
  · unfold CompetitionService.register_for_competition
    simp [h]

/-- C5 witness: the amended theorem on `teamAlpha` for a non-captain and for
the captain. -/
theorem c5_captain_check_witness :
    CompetitionService.register_for_competition (some compHybrid) userVerified
        (some "t1") (some teamAlpha) =
      Except.error (valueError "Only team captain can register team") ∧
    CompetitionService.register_for_competition (some compHybrid) userCaptain
        (some "t1") (some teamAlpha) =
      compHybrid.register_participant "t1" "team" :=
  ⟨(c5_captain_check compHybrid userVerified "t1" teamAlpha).1 (by decide),
   (c5_captain_check compHybrid userCaptain "t1" teamAlpha).2.2 (by decide)⟩

/-- C6 counterexample: listing the same judge twice in one
`assign_judges_to_competition` call creates two `JudgeAssignment` records for
the (competition, judge) pair, not one — the operation is not idempotent. -/
theorem c6_counterexample :
    ((JudgingService.assign_judges_to_competition "c" ["j1", "j1"]
        "manual").filter (fun a => a.judge_id == "j1")).length = 2 ∧
      (2 : Nat) ≠ 1 := by
  exact ⟨by decide, by decide⟩

/-- C6 (amended): `assign_judges_to_competition` creates one `JudgeAssignment`
per element of `judge_ids` unconditionally: the number of records produced for
a judge equals the number of times that judge appears in the list (so a
duplicated judge yields duplicate records), and a second call simply appends
its own records to those of the first. -/
theorem c6_assignment_count (cid method j : String) (ids more : List String) :
    ((JudgingService.assign_judges_to_competition cid ids method).filter
        (fun a => a.judge_id == j)).length = ids.count j ∧
    JudgingService.assign_judges_to_competition cid (ids ++ more) method =
      JudgingService.assign_judges_to_competition cid ids method ++
        JudgingService.assign_judges_to_competition cid more method := by
  constructor
  · induction ids with
    | nil => rfl
    | cons x xs ih =>
      simp only [JudgingService.assign_judges_to_competition, List.map_cons,
        List.filter_cons, List.count_cons] at ih ⊢
      by_cases hx : x == j
      · simp [hx, ih]
      · simp [hx, ih]
  · unfold JudgingService.assign_judges_to_competition
    simp

/-- C7 counterexample: two votes on submission 1 three seconds apart — the
pipeline flags only the second vote (`[0, 1]`), not both (`[1, 1]`) as the
claim states; ten seconds apart nothing is flagged. -/
theorem c7_counterexample :
    rapid_vote_anomaly [⟨1, 0⟩, ⟨1, 3⟩] = [0, 1] ∧
      ([0, 1] : List Nat) ≠ [1, 1] ∧
      rapid_vote_anomaly [⟨1, 0⟩, ⟨1, 10⟩] = [0, 0] := by
  refine ⟨by decide, by decide, by decide⟩

/-- C7 (amended): a vote is flagged `rapid_vote_anomaly` exactly when there is
a previous vote on the same submission and the gap to the closest one is
strictly under the 5-second minimum.  In particular, of two votes 3 seconds
apart only the second is flagged (the first has no previous vote; its pandas
diff is `NaN` and `NaN < 5` is false), and 10 seconds apart neither is. -/
theorem c7_rapid_vote_flag (rows : List VoteRow) (i : Nat) (r : VoteRow)
    (hr : rows[i]? = some r) :
    (rapid_vote_anomaly rows)[i]? = some 1 ↔
      ∃ t, lastTimestamp (rows.take i) r.submission_id = some t ∧
        r.vote_timestamp - t < 5 := by
  have hi : i < rows.length := by
    by_contra hle
    rw [List.getElem?_eq_none_iff.mpr (Nat.le_of_not_lt hle)] at hr
    cases hr
  unfold rapid_vote_anomaly vote_time_diff
  rw [List.getElem?_map, List.getElem?_map, List.getElem?_range hi]
  rw [Option.map_some', Option.map_some', hr]
  cases hlt : lastTimestamp (rows.take i) r.submission_id with
  | none => simp [hlt]
  | some t =>
    simp only [hlt, Option.map_some', Option.some.injEq]
    split_ifs with h5
    · simp [h5]
    · simp [h5]

/-- C7 witness: the amended characterization applied to the 3-second pair —
the second vote is flagged. -/
theorem c7_rapid_vote_flag_witness :
    (rapid_vote_anomaly [⟨1, 0⟩, ⟨1, 3⟩])[1]? = some 1 :=
  (c7_rapid_vote_flag [⟨1, 0⟩, ⟨1, 3⟩] 1 ⟨1, 3⟩ rfl).mpr ⟨0, rfl, by decide⟩

/-- C8 counterexample: `Team.__init__` accepts `max_members = 0` and then
starts with `current_member_count = 1 > max_members`, so the claimed
invariant fails already at a constructor-produced state. -/
theorem c8_counterexample :
    ¬ (1 ≤ (Team.new "t0" "Zero" "cap" 0).current_member_count ∧
       (Team.new "t0" "Zero" "cap" 0).current_member_count ≤
         (Team.new "t0" "Zero" "cap" 0).max_members) := by
  decide

/-- One gated addition preserves the team-size invariant. -/
theorem add_member_gated_invariant (t : Team)
    (h1 : 1 ≤ t.current_member_count)
    (h2 : t.current_member_count ≤ t.max_members) :
    1 ≤ t.add_member_gated.current_member_count ∧
      t.add_member_gated.current_member_count ≤
        t.add_member_gated.max_members := by
  unfold Team.add_member_gated Team.can_add_member
  by_cases hs : t.status ≠ "forming"
  · simp [hs]
    exact ⟨h1, h2⟩
  · by_cases hc : t.current_member_count ≥ t.max_members
    · simp [hs, hc]
      exact ⟨h1, h2⟩
    · simp [hs, hc]
      constructor <;> omega

/-- The invariant propagates through any number of gated additions. -/
theorem apply_adds_invariant (n : Nat) : ∀ (t : Team),
    1 ≤ t.current_member_count → t.current_member_count ≤ t.max_members →
    1 ≤ (t.apply_adds n).current_member_count ∧
      (t.apply_adds n).current_member_count ≤
        (t.apply_adds n).max_members := by
  induction n with
  | zero => intro t h1 h2; exact ⟨h1, h2⟩
  | succ n ih =>
    intro t h1 h2
    have hg := add_member_gated_invariant t h1 h2
    exact ih _ hg.1 hg.2

/-- C8 (amended): when the constructor argument satisfies `max_members ≥ 1`
(the source's default is 4), every state reached from the constructor by
`can_add_member`-gated member additions satisfies
`1 ≤ current_member_count ≤ max_members`.  The constructor itself does not
validate `max_members`, so the invariant fails for non-positive arguments. -/
theorem c8_team_invariant (id name cap : String) (m : Int) (hm : 1 ≤ m)
    (n : Nat) :
    1 ≤ ((Team.new id name cap m).apply_adds n).current_member_count ∧
      ((Team.new id name cap m).apply_adds n).current_member_count ≤
        ((Team.new id name cap m).apply_adds n).max_members :=
  apply_adds_invariant n (Team.new id name cap m) le_rfl hm

/-- C8 witness: three gated additions on a fresh team with capacity 2. -/
theorem c8_team_invariant_witness :
    1 ≤ ((Team.new "t1" "Alpha" "cap" 2).apply_adds 3).current_member_count ∧
      ((Team.new "t1" "Alpha" "cap" 2).apply_adds 3).current_member_count ≤
        ((Team.new "t1" "Alpha" "cap" 2).apply_adds 3).max_members :=
  c8_team_invariant "t1" "Alpha" "cap" 2 (by decide) 3

/-- C9: `can_user_vote` fails exactly when the session is not active (status
not `"active"` or current time outside the window), or authentication is
required and the email unverified, or vote changing is prevented and the user
has already voted; and `is_active` holds exactly when the status is
`"active"` and `start_time ≤ now ≤ end_time`. -/
theorem c9_can_vote_characterization (v : VotingSession) (u : User)
    (has_voted : Bool) (now : Int) :
    ((v.can_user_vote u has_voted now).1 = false ↔
      (v.is_active now = false ∨
        (v.requires_authentication = true ∧ u.email_verified = false) ∨
        (v.prevent_vote_changing.getD false = true ∧ has_voted = true))) ∧
    (v.is_active now = true ↔
      (v.status = "active" ∧ v.start_time ≤ now ∧ now ≤ v.end_time)) := by
  constructor
  · unfold VotingSession.can_user_vote
    split_ifs with h1 h2 h3 <;> simp_all
  · unfold VotingSession.is_active
    split_ifs with h1 <;> simp_all

/-- C10: `VotingSession.__init__` never creates the `prevent_vote_changing`
attribute; consequently, for any session without that attribute,
`can_user_vote` never answers "Already voted in this session", and a voter
with votes already recorded may vote again whenever the session is active and
the authentication check passes. -/
theorem c10_no_vote_changing_default :
    (∀ (id cid name : String) (vt : VotingType) (cb : String) (st et : Int),
      (VotingSession.new id cid name vt cb st et).prevent_vote_changing =
        none) ∧
    (∀ (v : VotingSession), v.prevent_vote_changing = none →
      ∀ (u : User) (has_voted : Bool) (now : Int),
        (v.can_user_vote u has_voted now).2 ≠
            "Already voted in this session" ∧
          (v.is_active now = true →
            (v.requires_authentication = true → u.email_verified = true) →
            v.can_user_vote u has_voted now = (true, "Can vote"))) := by
  constructor
  · intro id cid name vt cb st et
    rfl
  · intro v hv u has_voted now
    constructor
    · unfold VotingSession.can_user_vote
      split_ifs with h1 h2 h3 <;> simp_all
    · intro ha he
      unfold VotingSession.can_user_vote
      split_ifs with h1 h2 <;> simp_all

/-- C10 witness: in the live session (constructed without
`prevent_vote_changing`), a verified user who has already voted can still
vote. -/
theorem c10_no_vote_changing_default_witness :
    sessionLive.can_user_vote userVerified true 50 = (true, "Can vote") :=
  (c10_no_vote_changing_default.2 sessionLive rfl userVerified true 50).2
    (by decide) (fun _ => rfl)

end NestFest
